import Mathlib

/-!
Verification of the astrology-companion repository (src/app.py,
src/chat_companion.py, src/natal_backend.py) against its natural-language
specification.

The embedding has two layers:

* a typed layer for the functions of `chat_companion.py`, operating on chart
  records of the shape those functions read (an insertion-ordered mapping is
  an association list, an optional dictionary key is an `Option` field);
* a dynamic layer (`PVal`) modelling Python runtime values and the
  exceptions raised by attribute/key accesses, used where the claims hinge
  on the actual shape of the values produced by `natal_backend.py` and
  consumed by `app.py` / `chat_companion.py`.

Machine-level details that no claim touches (floating point positions,
SVG rendering, the network client) are modelled as opaque data threaded in
as parameters.
-/

/-- Python `sep.join(parts)`: the first part, then `sep ++ part` for each
further part; `""` on the empty list. -/
def pyJoin (sep : String) : List String → String
  | [] => ""
  | a :: rest => rest.foldl (fun acc x => acc ++ sep ++ x) a

/-- Python exceptions that the modelled code can raise or catch.
`apiError` stands for `anthropic.APIError`; every other constructor is
caught by the generic `except Exception` branches. -/
inductive PyErr where
  | apiError (msg : String)
  | keyError (key : String)
  | attributeError (attr : String)
  | typeError (msg : String)
  | otherError (msg : String)
deriving DecidableEq

/-- Python `str(e)` for the exceptions above (`str` of a `KeyError` shows
the missing key in quotes). -/
def errStr : PyErr → String
  | PyErr.apiError m => m
  | PyErr.keyError k => "\x27" ++ k ++ "\x27"
  | PyErr.attributeError a => a
  | PyErr.typeError m => m
  | PyErr.otherError m => m

/-- The in-band error strings produced by the `except` branches of
`AstrologyCompanion.chat` / `chat_stream` (chat_companion.py lines 139-142
and 182-185). -/
def errToChat : PyErr → String
  | PyErr.apiError m =>
    "API Error: " ++ (m ++ ". Please check your API key and try again.")
  | e => "Error: " ++ errStr e

/-- First-match lookup in an association list (the semantics of indexing a
Python `dict` whose insertion order we keep). -/
def lookupKV {α : Type} : List (String × α) → String → Option α
  | [], _ => Option.none
  | (k, v) :: rest, key => if k = key then some v else lookupKV rest key

/-- Dynamic Python values: everything the modelled fragments store in a
chart record. `null` is Python `None`. -/
inductive PVal where
  | null : PVal
  | bool : Bool → PVal
  | int : Int → PVal
  | str : String → PVal
  | list : List PVal → PVal
  | dict : List (String × PVal) → PVal

/-- Python truthiness of a value. -/
def pvTruthy : PVal → Bool
  | PVal.null => false
  | PVal.bool b => b
  | PVal.int n => n != 0
  | PVal.str s => s ≠ ""
  | PVal.list l => !l.isEmpty
  | PVal.dict d => !d.isEmpty

/-- Python `str(v)` as used in the modelled f-strings. Only scalar values
are ever interpolated on the paths the claims exercise; container
rendering is abbreviated. -/
def pvStr : PVal → String
  | PVal.null => "None"
  | PVal.bool b => if b then "True" else "False"
  | PVal.int n => toString n
  | PVal.str s => s
  | PVal.list _ => "[...]"
  | PVal.dict _ => "\x7b...\x7d"

/-- `v.get(key, default)`: defined on dictionaries, `AttributeError` on
anything else. -/
def pvGet (v : PVal) (key : String) (dflt : PVal) : Except PyErr PVal :=
  match v with
  | PVal.dict kvs => Except.ok ((lookupKV kvs key).getD dflt)
  | _ => Except.error (PyErr.attributeError "get")

/-- `v[key]` for a string key: `KeyError` when the key is missing,
`TypeError` when `v` is not a dictionary. -/
def pvItem (v : PVal) (key : String) : Except PyErr PVal :=
  match v with
  | PVal.dict kvs =>
    match lookupKV kvs key with
    | some x => Except.ok x
    | Option.none => Except.error (PyErr.keyError key)
  | _ => Except.error (PyErr.typeError "indices must not be str")

/-- `v.items()`: the ordered key/value pairs of a dictionary,
`AttributeError` on anything else — in particular on a Python `list`. -/
def pvItems (v : PVal) : Except PyErr (List (String × PVal)) :=
  match v with
  | PVal.dict kvs => Except.ok kvs
  | _ => Except.error (PyErr.attributeError "items")

/-- `v.values()`: dictionary values in order, `AttributeError` otherwise. -/
def pvValues (v : PVal) : Except PyErr (List PVal) :=
  match v with
  | PVal.dict kvs => Except.ok (kvs.map Prod.snd)
  | _ => Except.error (PyErr.attributeError "values")

/-- `key in v`: key membership for a dictionary, element equality with the
string for a list, `TypeError` otherwise. -/
def pvHasKey (v : PVal) (key : String) : Except PyErr Bool :=
  match v with
  | PVal.dict kvs => Except.ok ((lookupKV kvs key).isSome)
  | PVal.list l => Except.ok (l.any (fun x =>
      match x with
      | PVal.str s => s = key
      | _ => false))
  | _ => Except.error (PyErr.typeError "argument of type is not iterable")

/-- `v[:5]` followed by iteration: the first five elements of a list,
`TypeError` on a non-list. -/
def pvTake5 (v : PVal) : Except PyErr (List PVal) :=
  match v with
  | PVal.list l => Except.ok (l.take 5)
  | _ => Except.error (PyErr.typeError "object is not subscriptable")

/-- `v.isList`: shape probe used in the statements about the record
produced by `_extract_placements`. -/
def PVal.isList : PVal → Bool
  | PVal.list _ => true
  | _ => false

/-- `v.isDict`: shape probe for the mapping shape the spec describes. -/
def PVal.isDict : PVal → Bool
  | PVal.dict _ => true
  | _ => false

/-! ## Typed chart records, as read by `chat_companion.py`

`set_chart_context`, `get_suggested_prompts` and `format_chart_for_display`
read a chart record as a dictionary with a `success` flag, scalar birth
data, an insertion-ordered `placements` mapping from planet name to a
placement record, an optional `interpretation` mapping and an optional
`aspects` sequence.  `Option` on a field models presence of the
corresponding dictionary key. -/

/-- `chart_data['birth_data']` as read by the formatters (keys `date`,
`time`, `location`). -/
structure BirthData where
  date : String
  time : String
  location : String
deriving DecidableEq

/-- One value of the `placements` mapping: keys `sign`, `house`,
`retrograde`, `position`. -/
structure PlacementData where
  sign : String
  house : String
  retrograde : Bool
  position : Int
deriving DecidableEq

/-- One entry of the `aspects` sequence, with the keys the formatters
read: `planets`, `type`, `orb`. -/
structure AspectData where
  planets : String
  type : String
  orb : String
deriving DecidableEq

/-- A chart record of the shape consumed by `chat_companion.py`. -/
structure ChartData where
  success : Bool
  name : String
  birth_data : BirthData
  placements : Option (List (String × PlacementData))
  interpretation : Option (List (String × String))
  aspects : Option (List AspectData)
deriving DecidableEq

/-- One conversation turn: `{"role": ..., "content": ...}`. -/
structure ChatTurn where
  role : String
  content : String
deriving DecidableEq

/-- The mutable state of an `AstrologyCompanion` instance that the claims
concern: the system prompt loaded at construction time and the chart
context set by `set_chart_context` (chat_companion.py lines 37-40). -/
structure AstrologyCompanion where
  system_prompt : String
  chart_context : Option String
deriving DecidableEq

/-- Placement line of the context block (chat_companion.py lines 77-81):
`- {planet}: {sign} in House {house}` plus ` (Retrograde)` iff the
placement is retrograde. -/
def placementLine (p : String × PlacementData) : String :=
  "- " ++ (p.1 ++ ": " ++ p.2.sign ++ " in House " ++ p.2.house ++
    (if p.2.retrograde then " (Retrograde)" else ""))

/-- Aspect line of the context block (chat_companion.py lines 95-97):
`- {planets}: {type} (orb: {orb}°)`. -/
def contextAspectLine (a : AspectData) : String :=
  "- " ++ (a.planets ++ ": " ++ a.type ++ " (orb: " ++ a.orb ++ "°)")

/-- The fixed opening lines of the context block, including the
unconditional `PLACEMENTS:` header (chat_companion.py lines 68-74). -/
def contextIntroLines (cd : ChartData) : List String :=
  ["User\x27s Natal Chart - " ++ cd.name,
   "Birth: " ++ (cd.birth_data.date ++ " at " ++ cd.birth_data.time),
   "Location: " ++ cd.birth_data.location,
   "",
   "PLACEMENTS:"]

/-- The placement lines of the context block (chat_companion.py
lines 76-81); `chart_data.get('placements', {})` is `getD []`. -/
def contextPlacementLines (cd : ChartData) : List String :=
  (cd.placements.getD []).map placementLine

/-- The `KEY THEMES` section (chat_companion.py lines 83-88): present iff
the `interpretation` key is present, one line per value. -/
def contextInterpLines (cd : ChartData) : List String :=
  match cd.interpretation with
  | some kvs => ["", "KEY THEMES:"] ++ kvs.map (fun kv => "- " ++ kv.2)
  | Option.none => []

/-- The `MAJOR ASPECTS` section (chat_companion.py lines 90-97): present
iff `chart_data.get('aspects')` is truthy, at most the first five. -/
def contextAspectSection (cd : ChartData) : List String :=
  match cd.aspects with
  | some l =>
    if l.isEmpty then []
    else ["", "MAJOR ASPECTS:"] ++ (l.take 5).map contextAspectLine
  | Option.none => []

/-- All lines of the context block, in the order the source appends them
(chat_companion.py lines 67-99). -/
def contextLines (cd : ChartData) : List String :=
  contextIntroLines cd ++ contextPlacementLines cd ++ contextInterpLines cd
    ++ contextAspectSection cd

/-- `AstrologyCompanion.set_chart_context` (chat_companion.py lines
56-99): clears the context for an absent or unsuccessful record, else
stores the joined context block.  No other field is written. -/
def AstrologyCompanion.set_chart_context (c : AstrologyCompanion)
    (chart_data : Option ChartData) : AstrologyCompanion :=
  match chart_data with
  | Option.none => { c with chart_context := Option.none }
  | some cd =>
    if cd.success then
      { c with chart_context := some (pyJoin "\n" (contextLines cd)) }
    else
      { c with chart_context := Option.none }

/-! ## The chat calls

`chat` (chat_companion.py lines 101-142) and `chat_stream` (lines 144-185)
run the same prelude: bind `messages` to `conversation_history or []`
(aliasing the caller's list exactly when it is a non-empty list, a fresh
list otherwise), append the user turn, and recompute the system content
from the current chart context.  The network call is modelled by its
outcome, passed in as a parameter. -/

/-- Whether the local `messages` variable is the caller's list object or a
fresh list — the effect of Python `conversation_history or []`. -/
inductive HistBinding where
  | aliased
  | fresh
deriving DecidableEq

/-- The observable outcome of one `chat` call. `callerHistory` is the
content of the caller's `conversation_history` list after the call. -/
structure ChatCallResult where
  callerHistory : Option (List ChatTurn)
  messagesBinding : HistBinding
  messagesSent : List ChatTurn
  systemSent : String
  result : String
deriving DecidableEq

/-- The observable outcome of driving one `chat_stream` generator to
exhaustion. -/
structure StreamCallResult where
  callerHistory : Option (List ChatTurn)
  messagesBinding : HistBinding
  messagesSent : List ChatTurn
  systemSent : String
  chunks : List String
deriving DecidableEq

/-- `AstrologyCompanion.chat` (chat_companion.py lines 101-142).
`outcome` is the provider response: the texts of the content blocks on
success, the raised exception on failure.  `response.content[0].text` on
an empty block list raises `IndexError`, caught by `except Exception`. -/
def AstrologyCompanion.chat (c : AstrologyCompanion) (message : String)
    (conversation_history : Option (List ChatTurn))
    (outcome : Except PyErr (List String)) : ChatCallResult :=
  let binding : HistBinding :=
    match conversation_history with
    | some l => if l.isEmpty then HistBinding.fresh else HistBinding.aliased
    | Option.none => HistBinding.fresh
  let messages : List ChatTurn :=
    (match conversation_history with
     | some l => if l.isEmpty then [] else l
     | Option.none => []) ++ [{ role := "user", content := message }]
  let callerHistory : Option (List ChatTurn) :=
    match binding with
    | HistBinding.aliased => some messages
    | HistBinding.fresh => conversation_history
  let system_content : String :=
    match c.chart_context with
    | some ctx =>
      if ctx = "" then c.system_prompt
      else c.system_prompt ++ "\n\n---\n\nCURRENT CHART CONTEXT:\n" ++ ctx
    | Option.none => c.system_prompt
  let result : String :=
    match outcome with
    | Except.ok blocks =>
      match blocks with
      | [] => errToChat (PyErr.otherError "list index out of range")
      | t :: _ => t
    | Except.error e => errToChat e
  { callerHistory := callerHistory, messagesBinding := binding,
    messagesSent := messages, systemSent := system_content,
    result := result }

/-- `AstrologyCompanion.chat_stream` (chat_companion.py lines 144-185),
driven to exhaustion.  The provider behaviour is `streamed` (the text
deltas delivered before completion or failure) and `failure` (the
exception raised mid-stream, if any); the `except` branches around the
yield loop turn a failure into one final in-band error chunk. -/
def AstrologyCompanion.chat_stream (c : AstrologyCompanion) (message : String)
    (conversation_history : Option (List ChatTurn))
    (streamed : List String) (failure : Option PyErr) : StreamCallResult :=
  let binding : HistBinding :=
    match conversation_history with
    | some l => if l.isEmpty then HistBinding.fresh else HistBinding.aliased
    | Option.none => HistBinding.fresh
  let messages : List ChatTurn :=
    (match conversation_history with
     | some l => if l.isEmpty then [] else l
     | Option.none => []) ++ [{ role := "user", content := message }]
  let callerHistory : Option (List ChatTurn) :=
    match binding with
    | HistBinding.aliased => some messages
    | HistBinding.fresh => conversation_history
  let system_content : String :=
    match c.chart_context with
    | some ctx =>
      if ctx = "" then c.system_prompt
      else c.system_prompt ++ "\n\n---\n\nCURRENT CHART CONTEXT:\n" ++ ctx
    | Option.none => c.system_prompt
  let chunks : List String :=
    match failure with
    | some e => streamed ++ [errToChat e]
    | Option.none => streamed
  { callerHistory := callerHistory, messagesBinding := binding,
    messagesSent := messages, systemSent := system_content,
    chunks := chunks }

/-- `AstrologyCompanion.get_suggested_prompts` (chat_companion.py lines
187-230). -/
def AstrologyCompanion.get_suggested_prompts
    (chart_data : Option ChartData) : List String :=
  let generic : List String :=
    ["Tell me about my sun sign",
     "What does my moon sign mean?",
     "How do I read my natal chart?",
     "What are the most important placements?",
     "Explain houses in astrology"]
  match chart_data with
  | Option.none => generic
  | some cd =>
    if cd.success then
      let placements := cd.placements.getD []
      let prompts : List String :=
        (match lookupKV placements "Sun" with
         | some d =>
           ["What does my Sun in " ++ d.sign ++ " mean for my identity?"]
         | Option.none => [])
        ++ (match lookupKV placements "Moon" with
            | some d => ["Tell me about my Moon in " ++ d.sign]
            | Option.none => [])
        ++ (match lookupKV placements "Venus" with
            | some d =>
              ["What does Venus in my " ++ d.house ++
                "th house say about relationships?"]
            | Option.none => [])
        ++ ["What stands out most in my chart?",
            "How can I work with my chart\x27s challenges?",
            "What are my natural strengths according to my chart?"]
      prompts.take 6
    else generic

/-- Interpretation paragraphs of the display document
(chat_companion.py lines 256-260): each value then a blank line. -/
def displayInterpLines (cd : ChartData) : List String :=
  match cd.interpretation with
  | some kvs => kvs.flatMap (fun kv => [kv.2, ""])
  | Option.none => []

/-- Placement bullet of the display document (chat_companion.py lines
265-268): `- **{planet}**: {sign} (House {house})` plus ` ℞` iff
retrograde. -/
def displayPlacementLine (p : String × PlacementData) : String :=
  "- " ++ ("**" ++ p.1 ++ "**: " ++ p.2.sign ++ " (House " ++ p.2.house
    ++ ")" ++ (if p.2.retrograde then " ℞" else ""))

/-- Placement section body of the display document (chat_companion.py
lines 265-269): present iff the `placements` key is present, with a
trailing blank line. -/
def displayPlacementSection (cd : ChartData) : List String :=
  match cd.placements with
  | some pl => pl.map displayPlacementLine ++ [""]
  | Option.none => []

/-- Aspect bullet of the display document (chat_companion.py line 276):
no orb shown. -/
def displayAspectLine (a : AspectData) : String :=
  "- " ++ (a.planets ++ ": " ++ a.type)

/-- Aspect section of the display document (chat_companion.py lines
272-277): present iff `chart_data.get('aspects')` is truthy, first five
aspects only. -/
def displayAspectSection (cd : ChartData) : List String :=
  match cd.aspects with
  | some l =>
    if l.isEmpty then []
    else ["## Major Aspects", ""] ++ (l.take 5).map displayAspectLine ++ [""]
  | Option.none => []

/-- Fixed opening lines of the display document (chat_companion.py lines
246-254). -/
def displayHeadLines (cd : ChartData) : List String :=
  ["# Natal Chart: " ++ cd.name,
   "",
   "**Birth:** " ++ (cd.birth_data.date ++ " at " ++ cd.birth_data.time),
   "**Location:** " ++ cd.birth_data.location,
   "",
   "## Core Identity",
   ""]

/-- `format_chart_for_display` (chat_companion.py lines 233-279) on a
chart record; the early return for a falsy `success`. -/
def format_chart_for_display (cd : ChartData) : String :=
  if cd.success then
    pyJoin "\n" (displayHeadLines cd ++ displayInterpLines cd
      ++ ["## Planetary Placements", ""] ++ displayPlacementSection cd
      ++ displayAspectSection cd)
  else "No chart data available."

/-! ## Definitions following the words of the spec

These two do not come from the source; they restate what the spec (§4.2)
says, to be compared with the source-derived functions. -/

/-- Modelled from the spec: `composeSystemPrompt()` — the base prompt when
no context is set, otherwise base + fixed two-newline-plus-rule separator
+ `CURRENT CHART CONTEXT:` + newline + the stored context text. -/
def composeSystemPrompt (c : AstrologyCompanion) : String :=
  match c.chart_context with
  | Option.none => c.system_prompt
  | some ctx =>
    c.system_prompt ++ "\n\n---\n\n" ++ "CURRENT CHART CONTEXT:\n" ++ ctx

/-- Modelled from the spec: `suggestedPrompts(chart)` — the fixed 5-item
generic list for an absent/unsuccessful chart; otherwise a Sun question
iff a `Sun` placement exists, then a Moon question iff `Moon` exists, then
a Venus question iff `Venus` exists, then the three fixed closing
questions, truncated to the first 6 entries. -/
def suggestedPrompts (chart : Option ChartData) : List String :=
  let failCase : Bool :=
    match chart with
    | Option.none => true
    | some cd => !cd.success
  if failCase then
    ["Tell me about my sun sign",
     "What does my moon sign mean?",
     "How do I read my natal chart?",
     "What are the most important placements?",
     "Explain houses in astrology"]
  else
    match chart with
    | Option.none => []
    | some cd =>
      let pl := cd.placements.getD []
      (List.flatten
        [(lookupKV pl "Sun").elim []
           (fun d =>
             ["What does my Sun in " ++ d.sign ++ " mean for my identity?"]),
         (lookupKV pl "Moon").elim []
           (fun d => ["Tell me about my Moon in " ++ d.sign]),
         (lookupKV pl "Venus").elim []
           (fun d =>
             ["What does Venus in my " ++ d.house ++
               "th house say about relationships?"]),
         ["What stands out most in my chart?",
          "How can I work with my chart\x27s challenges?",
          "What are my natural strengths according to my chart?"]]).take 6

/-! ## Dynamic layer: the consumers on arbitrary Python values

These re-trace `set_chart_context` and `format_chart_for_display`
statement by statement over `PVal`, so that the exceptions Python raises
on the values actually produced by `natal_backend.py` (and on an absent
record) are part of the semantics.  The result is the new value of
`self.chart_context` (resp. the returned string), or the exception that
propagates to the caller. -/

/-- `AstrologyCompanion.set_chart_context` over dynamic values
(chat_companion.py lines 56-99).  Accesses happen in source order: the
f-strings of the `context_parts` literal first, then
`chart_data.get('placements', {}).items()`, then the loop bodies. -/
def set_chart_context_dyn (chart_data : PVal) : Except PyErr (Option String) := do
  let notSet : Bool ←
    if !pvTruthy chart_data then pure true
    else do
      let succ ← pvGet chart_data "success" PVal.null
      pure (!pvTruthy succ)
  if notSet then
    return Option.none
  let nameV ← pvItem chart_data "name"
  let bd ← pvItem chart_data "birth_data"
  let dateV ← pvItem bd "date"
  let timeV ← pvItem bd "time"
  let locV ← pvItem bd "location"
  let intro : List String :=
    ["User\x27s Natal Chart - " ++ pvStr nameV,
     "Birth: " ++ (pvStr dateV ++ " at " ++ pvStr timeV),
     "Location: " ++ pvStr locV,
     "",
     "PLACEMENTS:"]
  let placementsV ← pvGet chart_data "placements" (PVal.dict [])
  let pairs ← pvItems placementsV
  let placementPart ← pairs.mapM (fun kv => do
    let retroV ← pvGet kv.2 "retrograde" PVal.null
    let signV ← pvItem kv.2 "sign"
    let houseV ← pvItem kv.2 "house"
    pure ("- " ++ (kv.1 ++ ": " ++ pvStr signV ++ " in House " ++
      pvStr houseV ++ (if pvTruthy retroV then " (Retrograde)" else ""))))
  let hasInterp ← pvHasKey chart_data "interpretation"
  let interpPart : List String ←
    if hasInterp then do
      let iv ← pvItem chart_data "interpretation"
      let ipairs ← pvItems iv
      pure (["", "KEY THEMES:"] ++ ipairs.map (fun kv => "- " ++ pvStr kv.2))
    else pure []
  let aspectsV ← pvGet chart_data "aspects" PVal.null
  let aspectPart : List String ←
    if pvTruthy aspectsV then do
      let five ← pvTake5 aspectsV
      let ls ← five.mapM (fun a => do
        let pl ← pvItem a "planets"
        let ty ← pvItem a "type"
        let orbV ← pvItem a "orb"
        pure ("- " ++ (pvStr pl ++ ": " ++ pvStr ty ++ " (orb: " ++
          pvStr orbV ++ "°)")))
      pure (["", "MAJOR ASPECTS:"] ++ ls)
    else pure []
  return some (pyJoin "\n"
    (intro ++ placementPart ++ interpPart ++ aspectPart))

/-- `format_chart_for_display` over dynamic values (chat_companion.py
lines 233-279).  The very first operation, `chart_data.get("success")`,
raises `AttributeError` when the argument is `None`. -/
def format_chart_for_display_dyn (chart_data : PVal) : Except PyErr String := do
  let succ ← pvGet chart_data "success" PVal.null
  if !pvTruthy succ then
    return "No chart data available."
  let nameV ← pvItem chart_data "name"
  let bd ← pvItem chart_data "birth_data"
  let dateV ← pvItem bd "date"
  let timeV ← pvItem bd "time"
  let locV ← pvItem bd "location"
  let head : List String :=
    ["# Natal Chart: " ++ pvStr nameV,
     "",
     "**Birth:** " ++ (pvStr dateV ++ " at " ++ pvStr timeV),
     "**Location:** " ++ pvStr locV,
     "",
     "## Core Identity",
     ""]
  let hasInterp ← pvHasKey chart_data "interpretation"
  let interpPart : List String ←
    if hasInterp then do
      let iv ← pvItem chart_data "interpretation"
      let vals ← pvValues iv
      pure (vals.flatMap (fun v => [pvStr v, ""]))
    else pure []
  let hasPlacements ← pvHasKey chart_data "placements"
  let placementPart : List String ←
    if hasPlacements then do
      let pv ← pvItem chart_data "placements"
      let pairs ← pvItems pv
      let ls ← pairs.mapM (fun kv => do
        let retroV ← pvGet kv.2 "retrograde" PVal.null
        let signV ← pvItem kv.2 "sign"
        let houseV ← pvItem kv.2 "house"
        pure ("- " ++ ("**" ++ kv.1 ++ "**: " ++ pvStr signV ++ " (House "
          ++ pvStr houseV ++ ")" ++ (if pvTruthy retroV then " ℞" else ""))))
      pure (ls ++ [""])
    else pure []
  let aspectsV ← pvGet chart_data "aspects" PVal.null
  let aspectPart : List String ←
    if pvTruthy aspectsV then do
      let five ← pvTake5 aspectsV
      let ls ← five.mapM (fun a => do
        let pl ← pvItem a "planets"
        let ty ← pvItem a "type"
        pure ("- " ++ (pvStr pl ++ ": " ++ pvStr ty)))
      pure (["## Major Aspects", ""] ++ ls ++ [""])
    else pure []
  return pyJoin "\n" (head ++ interpPart ++ ["## Planetary Placements", ""]
    ++ placementPart ++ aspectPart)

/-! ## `natal_backend.py`

The astrology library objects are modelled just as deeply as the backend
reads them: dict-like objects answering `.get(key, default)`, present on
the subject iff the corresponding `Option` field is `some`.  The numeric
`position`/`orbit` values (floats in the library) are carried as integers;
no modelled code computes with them. -/

/-- A kerykeion planet/house object as read by the backend: `.get` with a
default for the keys `sign`, `position`, `house`, `retrograde`. -/
structure PlanetObj where
  sign : Option String
  position : Option Int
  house : Option String
  retrograde : Option Bool
deriving DecidableEq

/-- The attributes of an `AstrologicalSubject` that the backend probes
with `hasattr`. -/
structure Subject where
  sun : Option PlanetObj
  moon : Option PlanetObj
  mercury : Option PlanetObj
  venus : Option PlanetObj
  mars : Option PlanetObj
  jupiter : Option PlanetObj
  saturn : Option PlanetObj
  uranus : Option PlanetObj
  neptune : Option PlanetObj
  pluto : Option PlanetObj
  mean_node : Option PlanetObj
  first_house : Option PlanetObj
  house2 : Option PlanetObj
  house3 : Option PlanetObj
  house4 : Option PlanetObj
  house5 : Option PlanetObj
  house6 : Option PlanetObj
  house7 : Option PlanetObj
  house8 : Option PlanetObj
  house9 : Option PlanetObj
  house10 : Option PlanetObj
  house11 : Option PlanetObj
  house12 : Option PlanetObj
deriving DecidableEq

/-- One element of `NatalAspects.all_aspects`, read with `.get`. -/
structure AspectSrc where
  p1_name : Option String
  p2_name : Option String
  aspect : Option String
  orbit : Option Int
  aspect_degrees : Option Int
deriving DecidableEq

/-- The per-planet record appended by `_extract_placements`
(natal_backend.py lines 110-116): note the `planet` NAME IS A FIELD of the
record, not its key. -/
def planetPlacementDict (planet_name : String) (p : PlanetObj) : PVal :=
  PVal.dict
    [("planet", PVal.str planet_name),
     ("sign", PVal.str (p.sign.getD "Unknown")),
     ("position", PVal.int (p.position.getD 0)),
     ("house", PVal.str (p.house.getD "Unknown")),
     ("retrograde", PVal.bool (p.retrograde.getD false))]

/-- `NatalChartGenerator._extract_placements` (natal_backend.py lines
88-128): a Python LIST of placement records, the Ascendant record inserted
at position 0 when `first_house` is present. -/
def extract_placements (subject : Subject) : List PVal :=
  let planets : List (Option PlanetObj × String) :=
    [(subject.sun, "Sun"), (subject.moon, "Moon"),
     (subject.mercury, "Mercury"), (subject.venus, "Venus"),
     (subject.mars, "Mars"), (subject.jupiter, "Jupiter"),
     (subject.saturn, "Saturn"), (subject.uranus, "Uranus"),
     (subject.neptune, "Neptune"), (subject.pluto, "Pluto"),
     (subject.mean_node, "North Node")]
  let base : List PVal :=
    planets.filterMap (fun pr =>
      match pr.1 with
      | some p => some (planetPlacementDict pr.2 p)
      | Option.none => Option.none)
  match subject.first_house with
  | some fh =>
    PVal.dict
      [("planet", PVal.str "Ascendant (Rising)"),
       ("sign", PVal.str (fh.sign.getD "Unknown")),
       ("position", PVal.int (fh.position.getD 0)),
       ("house", PVal.str "1"),
       ("retrograde", PVal.bool false)] :: base
  | Option.none => base

/-- `NatalChartGenerator._extract_aspects` (natal_backend.py lines
130-144); `Option.none` models an aspects object without `all_aspects`. -/
def extract_aspects (all_aspects : Option (List AspectSrc)) : List PVal :=
  match all_aspects with
  | some l =>
    l.map (fun a => PVal.dict
      [("planet1", PVal.str (a.p1_name.getD "Unknown")),
       ("planet2", PVal.str (a.p2_name.getD "Unknown")),
       ("aspect_type", PVal.str (a.aspect.getD "Unknown")),
       ("orb", PVal.int (a.orbit.getD 0)),
       ("aspect_degrees", PVal.int (a.aspect_degrees.getD 0))])
  | Option.none => []

/-- `NatalChartGenerator._extract_houses` (natal_backend.py lines
146-160). -/
def extract_houses (subject : Subject) : List PVal :=
  let attrs : List (Int × Option PlanetObj) :=
    [(1, subject.first_house), (2, subject.house2), (3, subject.house3),
     (4, subject.house4), (5, subject.house5), (6, subject.house6),
     (7, subject.house7), (8, subject.house8), (9, subject.house9),
     (10, subject.house10), (11, subject.house11), (12, subject.house12)]
  attrs.filterMap (fun pr =>
    match pr.2 with
    | some h => some (PVal.dict
        [("house", PVal.int pr.1),
         ("sign", PVal.str (h.sign.getD "Unknown")),
         ("position", PVal.int (h.position.getD 0))])
    | Option.none => Option.none)

/-- `NatalChartGenerator._interpret_sun` (natal_backend.py lines
183-199). -/
def interpret_sun (sign : String) : String :=
  (lookupKV
    [("Aries", "Bold, pioneering, and action-oriented. You lead with courage and initiative."),
     ("Taurus", "Grounded, patient, and values-driven. You seek stability and sensory pleasure."),
     ("Gemini", "Curious, communicative, and adaptable. You thrive on variety and mental stimulation."),
     ("Cancer", "Nurturing, intuitive, and emotionally deep. You value home and emotional security."),
     ("Leo", "Confident, creative, and expressive. You shine through self-expression and generosity."),
     ("Virgo", "Analytical, practical, and service-oriented. You excel through precision and helpfulness."),
     ("Libra", "Diplomatic, harmonious, and relationship-focused. You seek balance and beauty."),
     ("Scorpio", "Intense, transformative, and emotionally powerful. You dive deep and transform."),
     ("Sagittarius", "Adventurous, philosophical, and optimistic. You seek meaning and expansion."),
     ("Capricorn", "Ambitious, disciplined, and achievement-oriented. You build lasting structures."),
     ("Aquarius", "Innovative, humanitarian, and individualistic. You envision progressive futures."),
     ("Pisces", "Compassionate, imaginative, and spiritually attuned. You dissolve boundaries.")]
    sign).getD "Core identity and life force expression."

/-- `NatalChartGenerator._interpret_moon` (natal_backend.py lines
201-217). -/
def interpret_moon (sign : String) : String :=
  (lookupKV
    [("Aries", "Emotional courage and quick feelings. You need independence and action."),
     ("Taurus", "Emotional stability and comfort-seeking. You need security and sensory ease."),
     ("Gemini", "Emotionally curious and communicative. You need variety and mental connection."),
     ("Cancer", "Deeply nurturing and protective. You need emotional safety and family bonds."),
     ("Leo", "Emotionally warm and expressive. You need recognition and creative outlets."),
     ("Virgo", "Emotionally practical and analytical. You need order and useful service."),
     ("Libra", "Emotionally balanced and relational. You need harmony and partnership."),
     ("Scorpio", "Emotionally intense and private. You need depth and transformative connection."),
     ("Sagittarius", "Emotionally optimistic and free. You need adventure and philosophical meaning."),
     ("Capricorn", "Emotionally controlled and responsible. You need structure and achievement."),
     ("Aquarius", "Emotionally detached and humanitarian. You need freedom and intellectual stimulation."),
     ("Pisces", "Emotionally empathic and boundless. You need spiritual connection and creativity.")]
    sign).getD "Emotional nature and instinctual responses."

/-- `NatalChartGenerator._interpret_rising` (natal_backend.py lines
219-235). -/
def interpret_rising (sign : String) : String :=
  (lookupKV
    [("Aries", "You appear bold, direct, and energetic. First impression: pioneering and confident."),
     ("Taurus", "You appear calm, reliable, and grounded. First impression: stable and pleasant."),
     ("Gemini", "You appear curious, witty, and versatile. First impression: quick and engaging."),
     ("Cancer", "You appear gentle, protective, and empathetic. First impression: caring and sensitive."),
     ("Leo", "You appear confident, warm, and charismatic. First impression: radiant and generous."),
     ("Virgo", "You appear modest, helpful, and analytical. First impression: precise and thoughtful."),
     ("Libra", "You appear charming, diplomatic, and graceful. First impression: balanced and pleasant."),
     ("Scorpio", "You appear intense, magnetic, and private. First impression: powerful and mysterious."),
     ("Sagittarius", "You appear optimistic, adventurous, and open. First impression: friendly and philosophical."),
     ("Capricorn", "You appear serious, professional, and reserved. First impression: responsible and mature."),
     ("Aquarius", "You appear unique, friendly, and progressive. First impression: unconventional and interesting."),
     ("Pisces", "You appear gentle, dreamy, and compassionate. First impression: ethereal and artistic.")]
    sign).getD "Your outward persona and approach to life."

/-- `NatalChartGenerator._generate_interpretation` (natal_backend.py lines
162-181): keys `sun`, `moon`, `rising`, each present iff the subject has
the attribute. -/
def generate_interpretation (subject : Subject) : PVal :=
  PVal.dict
    ((match subject.sun with
      | some p => [("sun", PVal.str (interpret_sun (p.sign.getD "")))]
      | Option.none => [])
     ++ (match subject.moon with
         | some p => [("moon", PVal.str (interpret_moon (p.sign.getD "")))]
         | Option.none => [])
     ++ (match subject.first_house with
         | some p =>
           [("rising", PVal.str (interpret_rising (p.sign.getD "")))]
         | Option.none => []))

/-- `{n:02d}` formatting for the date/time f-strings. -/
def pad2 (n : Nat) : String :=
  if n < 10 then "0" ++ toString n else toString n

/-- `name.replace(' ', '_')` for the SVG file name. -/
def replaceSpaces (s : String) : String :=
  String.mk (s.data.map (fun c => if c = ' ' then '_' else c))

/-- `NatalChartGenerator.generate_chart` (natal_backend.py lines 20-86).
The library calls inside the `try` block are threaded in: `subjectResult`
is the constructed `AstrologicalSubject` or the exception it raised, and
`all_aspects` the aspect list of `NatalAspects`.  On an exception the
failure record is returned; otherwise the chart record dictionary is built
exactly as on lines 62-78. -/
def generate_chart (name : String) (year month day hour minute : Nat)
    (latitude longitude : Int) (timezone : String) (city : Option String)
    (subjectResult : Except PyErr Subject)
    (all_aspects : Option (List AspectSrc)) : PVal :=
  match subjectResult with
  | Except.error e =>
    PVal.dict [("success", PVal.bool false), ("message", PVal.str (errStr e))]
  | Except.ok subject =>
    PVal.dict
      [("success", PVal.bool true),
       ("name", PVal.str name),
       ("birth_data", PVal.dict
         [("date", PVal.str (toString year ++ "-" ++ pad2 month ++ "-"
            ++ pad2 day)),
          ("time", PVal.str (pad2 hour ++ ":" ++ pad2 minute)),
          ("city", PVal.str
            (match city with
             | some c => if c = "" then "Unknown" else c
             | Option.none => "Unknown")),
          ("latitude", PVal.int latitude),
          ("longitude", PVal.int longitude),
          ("timezone", PVal.str timezone)]),
       ("placements", PVal.list (extract_placements subject)),
       ("aspects", PVal.list (extract_aspects all_aspects)),
       ("houses", PVal.list (extract_houses subject)),
       ("chart_svg_path", PVal.str
         ("output/" ++ replaceSpaces name ++ "_chart.svg")),
       ("interpretation", generate_interpretation subject)]

/-! ## `app.py`: the process-wide chart slot -/

/-- The process-wide pair the invariant claims concern: the module-global
`current_chart_data` (app.py line 18) and the companion's `chart_context`
(the `chartContextText` of the spec). -/
structure AppStateDyn where
  current_chart_data : Option PVal
  chart_context : Option String

/-- `generate_natal_chart` (app.py lines 21-77).  The upstream library
inputs of `NatalChartGenerator.generate_chart` are threaded through;
`svg_exists` is the `Path(...).exists()` probe.  Returns the state after
the call together with either the returned `(svg, text, status)` triple or
the exception that propagates out of the handler.  The global assignment
`current_chart_data = result` (line 63) happens BEFORE
`set_chart_context` (line 66) runs. -/
def generate_natal_chart (st : AppStateDyn) (name : String)
    (year month day hour minute : Nat) (city : String)
    (latitude longitude : Int) (timezone : String)
    (subjectResult : Except PyErr Subject)
    (all_aspects : Option (List AspectSrc)) (svg_exists : Bool) :
    AppStateDyn × Except PyErr (Option String × String × String) :=
  if name = "" ∨ city = "" then
    (st, Except.ok (Option.none, "Please provide both name and city.",
      "⚠ Missing required fields"))
  else
    let result := generate_chart name year month day hour minute latitude
      longitude timezone (some city) subjectResult all_aspects
    match pvGet result "success" PVal.null with
    | Except.error e => (st, Except.error e)
    | Except.ok succ =>
      if !pvTruthy succ then
        let error_msg :=
          match pvGet result "message" (PVal.str "Unknown error occurred") with
          | Except.ok m => pvStr m
          | Except.error _ => "Unknown error occurred"
        (st, Except.ok (Option.none, "Error: " ++ error_msg,
          "❌ Chart generation failed"))
      else
        let st1 := { st with current_chart_data := some result }
        match set_chart_context_dyn result with
        | Except.error e => (st1, Except.error e)
        | Except.ok ctx =>
          let st2 := { st1 with chart_context := ctx }
          match format_chart_for_display_dyn result with
          | Except.error e => (st2, Except.error e)
          | Except.ok chart_text =>
            match pvGet result "chart_svg" PVal.null with
            | Except.error e => (st2, Except.error e)
            | Except.ok chart_svg =>
              if pvTruthy chart_svg && svg_exists then
                (st2, Except.ok (some (pvStr chart_svg), chart_text,
                  "✓ Chart generated for " ++ name))
              else
                (st2, Except.ok (Option.none, chart_text,
                  "⚠ Chart generated but SVG not found"))

/-! ## Concrete sample data -/

/-- A fully populated kerykeion planet object. -/
def samplePlanet (sg : String) (hs : String) : PlanetObj :=
  { sign := some sg, position := some 10, house := some hs,
    retrograde := some false }

/-- A subject with every planet attribute present (the normal kerykeion
result); the numbered house attributes beyond the first are not needed by
any claim and are left absent. -/
def sampleSubject : Subject :=
  { sun := some (samplePlanet "Leo" "5"),
    moon := some (samplePlanet "Pisces" "12"),
    mercury := some (samplePlanet "Virgo" "6"),
    venus := some (samplePlanet "Libra" "7"),
    mars := some (samplePlanet "Aries" "1"),
    jupiter := some (samplePlanet "Taurus" "2"),
    saturn := some (samplePlanet "Capricorn" "10"),
    uranus := some (samplePlanet "Aquarius" "11"),
    neptune := some (samplePlanet "Pisces" "12"),
    pluto := some (samplePlanet "Scorpio" "8"),
    mean_node := some (samplePlanet "Gemini" "3"),
    first_house := some (samplePlanet "Aries" "1"),
    house2 := Option.none, house3 := Option.none, house4 := Option.none,
    house5 := Option.none, house6 := Option.none, house7 := Option.none,
    house8 := Option.none, house9 := Option.none, house10 := Option.none,
    house11 := Option.none, house12 := Option.none }

/-- The chart record `NatalChartGenerator.generate_chart` produces for
`sampleSubject` — the value handed to `set_chart_context` by
`generate_natal_chart` on a successful generation. -/
def sampleChart : PVal :=
  generate_chart "Ada" 1990 1 1 12 0 40 (-74) "America/New_York"
    (some "NYC") (Except.ok sampleSubject) Option.none

/-- App state before a generation, with a previous chart and context in
place. -/
def sampleAppState : AppStateDyn :=
  { current_chart_data := some (PVal.str "previous chart"),
    chart_context := some "previous context" }

/-- The result of running `generate_natal_chart` on `sampleAppState` with
valid inputs and a successful upstream computation. -/
def sampleGeneration : AppStateDyn × Except PyErr (Option String × String × String) :=
  generate_natal_chart sampleAppState "Ada" 1990 1 1 12 0 "NYC" 40 (-74)
    "America/New_York" (Except.ok sampleSubject) Option.none true

/-- A companion instance with the fallback system prompt and no chart
context. -/
def sampleCompanion : AstrologyCompanion :=
  { system_prompt := "You are a warm, insightful astrology companion.",
    chart_context := Option.none }

/-- A failed chart record (`success = false`). -/
def failedChart : ChartData :=
  { success := false, name := "X",
    birth_data := { date := "d", time := "t", location := "l" },
    placements := Option.none, interpretation := Option.none,
    aspects := Option.none }

/-- A successful chart record whose three optional sections are present
but empty. -/
def emptyChart : ChartData :=
  { success := true, name := "A",
    birth_data := { date := "D", time := "T", location := "L" },
    placements := some [], interpretation := some [], aspects := some [] }

/-- Eight aspects, for the truncation claims. -/
def eightAspects : List AspectData :=
  [{ planets := "Sun-Moon", type := "Trine", orb := "2.0" },
   { planets := "Sun-Mars", type := "Square", orb := "1.0" },
   { planets := "Moon-Venus", type := "Sextile", orb := "3.0" },
   { planets := "Mars-Jupiter", type := "Opposition", orb := "0.5" },
   { planets := "Venus-Saturn", type := "Conjunction", orb := "1.2" },
   { planets := "Sun-Pluto", type := "Trine", orb := "4.0" },
   { planets := "Moon-Neptune", type := "Square", orb := "2.2" },
   { planets := "Mercury-Uranus", type := "Sextile", orb := "0.8" }]

/-- A successful chart record with eight aspects. -/
def aspectRichChart : ChartData :=
  { success := true, name := "Ada",
    birth_data := { date := "1990-01-01", time := "12:00", location := "NYC" },
    placements := some [("Sun",
      { sign := "Leo", house := "5", retrograde := false, position := 10 })],
    interpretation := some [("sun", "Confident.")],
    aspects := some eightAspects }

/-! ## Helper lemmas -/

/-- Folding `acc ++ sep ++ x` over a list never shortens the
accumulator. -/
theorem foldl_sep_length (sep : String) :
    ∀ (l : List String) (acc : String),
      acc.length ≤ (l.foldl (fun acc x => acc ++ sep ++ x) acc).length := by
  intro l
  induction l with
  | nil => intro acc; exact Nat.le_refl _
  | cons x xs ih =>
    intro acc
    have h1 : acc.length ≤ (acc ++ sep ++ x).length := by
      simp [String.length_append]
      omega
    exact Nat.le_trans h1 (ih (acc ++ sep ++ x))

/-- `pyJoin` of a non-empty list is at least as long as its head. -/
theorem pyJoin_cons_length (sep a : String) (rest : List String) :
    a.length ≤ (pyJoin sep (a :: rest)).length :=
  foldl_sep_length sep rest a

/-- The joined context block always starts with the header line, hence is
never the empty string. -/
theorem contextJoin_ne_empty (cd : ChartData) :
    pyJoin "\n" (contextLines cd) ≠ "" := by
  intro he
  have h1 : ("User\x27s Natal Chart - " ++ cd.name).length
      ≤ (pyJoin "\n" (contextLines cd)).length := by
    have h0 : contextLines cd
        = ("User\x27s Natal Chart - " ++ cd.name) ::
          (["Birth: " ++ (cd.birth_data.date ++ " at " ++ cd.birth_data.time),
            "Location: " ++ cd.birth_data.location, "", "PLACEMENTS:"]
            ++ contextPlacementLines cd ++ contextInterpLines cd
            ++ contextAspectSection cd) := rfl
    rw [h0]
    exact pyJoin_cons_length _ _ _
  rw [he] at h1
  simp [String.length_append] at h1
  exact absurd h1.1 (by decide)

/-- The context stored by `set_chart_context` is never the empty string,
so the truthiness test in the chat prelude coincides with `Option`
presence on every reachable state. -/
theorem set_chart_context_no_empty_context (c : AstrologyCompanion)
    (cd : Option ChartData) :
    (AstrologyCompanion.set_chart_context c cd).chart_context ≠ some "" := by
  cases cd with
  | none => simp [AstrologyCompanion.set_chart_context]
  | some d =>
    by_cases hs : d.success
    · simp [AstrologyCompanion.set_chart_context, hs]
      exact contextJoin_ne_empty d
    · simp [AstrologyCompanion.set_chart_context, hs]

/-- Every in-band error string starts with `API Error: ` or `Error: `. -/
theorem errToChat_shape (e : PyErr) :
    (∃ r, errToChat e = "API Error: " ++ r)
    ∨ (∃ r, errToChat e = "Error: " ++ r) := by
  cases e with
  | apiError m =>
    exact Or.inl ⟨m ++ ". Please check your API key and try again.", rfl⟩
  | keyError k => exact Or.inr ⟨errStr (PyErr.keyError k), rfl⟩
  | attributeError a => exact Or.inr ⟨errStr (PyErr.attributeError a), rfl⟩
  | typeError m => exact Or.inr ⟨errStr (PyErr.typeError m), rfl⟩
  | otherError m => exact Or.inr ⟨errStr (PyErr.otherError m), rfl⟩

/-- On any state whose context is not the empty string, `chat` sends the
spec's `composeSystemPrompt`. -/
theorem chat_systemSent_eq (c : AstrologyCompanion) (message : String)
    (history : Option (List ChatTurn)) (outcome : Except PyErr (List String))
    (h : c.chart_context ≠ some "") :
    (AstrologyCompanion.chat c message history outcome).systemSent
      = composeSystemPrompt c := by
  cases hc : c.chart_context with
  | none => simp [AstrologyCompanion.chat, composeSystemPrompt, hc]
  | some ctx =>
    have hne : ctx ≠ "" := fun he => h (by rw [hc, he])
    simp [AstrologyCompanion.chat, composeSystemPrompt, hc, hne,
      String.append_assoc]

/-- Same statement for the streaming call. -/
theorem stream_systemSent_eq (c : AstrologyCompanion) (message : String)
    (history : Option (List ChatTurn)) (streamed : List String)
    (failure : Option PyErr) (h : c.chart_context ≠ some "") :
    (AstrologyCompanion.chat_stream c message history streamed
      failure).systemSent = composeSystemPrompt c := by
  cases hc : c.chart_context with
  | none => simp [AstrologyCompanion.chat_stream, composeSystemPrompt, hc]
  | some ctx =>
    have hne : ctx ≠ "" := fun he => h (by rw [hc, he])
    simp [AstrologyCompanion.chat_stream, composeSystemPrompt, hc, hne,
      String.append_assoc]

/-- A string whose first character differs cannot equal `a ++ s`. -/
theorem lit_head_ne (a s t : String) (c : Char) (cs : List Char)
    (ha : a.data = c :: cs) (ht : t.data.head? ≠ some c) : t ≠ a ++ s :=
  fun he => ht (by rw [he, String.data_append, ha]; rfl)

/-- No string starting with a character other than `-` equals a bullet
line `"- " ++ s`. -/
theorem ne_dash_line (s t : String) (ht : t.data.head? ≠ some '-') :
    t ≠ "- " ++ s :=
  lit_head_ne "- " s t '-' [' '] rfl ht

/-- Symmetric orientation of `ne_dash_line`. -/
theorem dash_line_ne (s t : String) (ht : t.data.head? ≠ some '-') :
    "- " ++ s ≠ t :=
  fun he => ne_dash_line s t ht he.symm

/-- A section header is not among the fixed opening lines of the context
block. -/
theorem not_in_intro (cd : ChartData) (t : String)
    (h0 : t ≠ "") (h1 : t ≠ "PLACEMENTS:")
    (hU : t.data.head? ≠ some 'U') (hB : t.data.head? ≠ some 'B')
    (hL : t.data.head? ≠ some 'L') : t ∉ contextIntroLines cd := by
  simp [contextIntroLines, h0, h1]
  exact ⟨lit_head_ne _ _ _ 'U' _ rfl hU,
    lit_head_ne _ _ _ 'B' _ rfl hB,
    lit_head_ne _ _ _ 'L' _ rfl hL⟩

/-- A section header is not among the placement bullet lines. -/
theorem not_in_plac (cd : ChartData) (t : String)
    (hd : t.data.head? ≠ some '-') : t ∉ contextPlacementLines cd := by
  simp [contextPlacementLines]
  intro x x1 hmem
  exact dash_line_ne _ _ hd

/-- A string that is neither blank, the `KEY THEMES:` header nor a bullet
is not in the interpretation section. -/
theorem not_in_interp (cd : ChartData) (t : String)
    (h0 : t ≠ "") (h1 : t ≠ "KEY THEMES:")
    (hd : t.data.head? ≠ some '-') : t ∉ contextInterpLines cd := by
  cases hi : cd.interpretation with
  | none => simp [contextInterpLines, hi]
  | some kvs =>
    simp [contextInterpLines, hi, h0, h1]
    intro x x1 hmem
    exact dash_line_ne _ _ hd

/-- A string that is neither blank, the `MAJOR ASPECTS:` header nor a
bullet is not in the aspects section. -/
theorem not_in_aspect (cd : ChartData) (t : String)
    (h0 : t ≠ "") (h1 : t ≠ "MAJOR ASPECTS:")
    (hd : t.data.head? ≠ some '-') : t ∉ contextAspectSection cd := by
  cases ha : cd.aspects with
  | none => simp [contextAspectSection, ha]
  | some l =>
    by_cases he : l.isEmpty
    · simp [contextAspectSection, ha, he]
    · simp [contextAspectSection, ha, he, h0, h1]
      intro hx
      rcases List.mem_map.mp (List.take_subset 5 _ hx) with ⟨a, _, heq⟩
      exact dash_line_ne _ _ hd heq

/-- The `KEY THEMES:` header appears in the context block exactly when the
`interpretation` key is present — even when its mapping is empty. -/
theorem kt_iff (cd : ChartData) :
    ("KEY THEMES:" ∈ contextLines cd) ↔ cd.interpretation.isSome := by
  constructor
  · intro h
    rcases List.mem_append.mp h with h2 | h2
    · rcases List.mem_append.mp h2 with h3 | h3
      · rcases List.mem_append.mp h3 with h4 | h4
        · exact absurd h4 (not_in_intro cd _ (by decide) (by decide)
            (by decide) (by decide) (by decide))
        · exact absurd h4 (not_in_plac cd _ (by decide))
      · cases hi : cd.interpretation with
        | none => simp [contextInterpLines, hi] at h3
        | some kvs => rfl
    · exact absurd h2 (not_in_aspect cd _ (by decide) (by decide) (by decide))
  · intro h
    cases hi : cd.interpretation with
    | none => rw [hi] at h; simp at h
    | some kvs =>
      have hmem : "KEY THEMES:" ∈ contextInterpLines cd := by
        simp [contextInterpLines, hi]
      unfold contextLines
      exact List.mem_append.mpr (Or.inl (List.mem_append.mpr (Or.inr hmem)))

/-- The `MAJOR ASPECTS:` header appears in the context block exactly when
the aspects sequence is present and non-empty. -/
theorem ma_iff (cd : ChartData) :
    ("MAJOR ASPECTS:" ∈ contextLines cd)
      ↔ (cd.aspects.getD []).isEmpty = false := by
  constructor
  · intro h
    rcases List.mem_append.mp h with h2 | h2
    · rcases List.mem_append.mp h2 with h3 | h3
      · rcases List.mem_append.mp h3 with h4 | h4
        · exact absurd h4 (not_in_intro cd _ (by decide) (by decide)
            (by decide) (by decide) (by decide))
        · exact absurd h4 (not_in_plac cd _ (by decide))
      · exact absurd h3 (not_in_interp cd _ (by decide) (by decide)
          (by decide))
    · cases ha : cd.aspects with
      | none => simp [contextAspectSection, ha] at h2
      | some l =>
        by_cases he : l.isEmpty
        · simp [contextAspectSection, ha, he] at h2
        · simpa using he
  · intro h
    cases ha : cd.aspects with
    | none => rw [ha] at h; simp at h
    | some l =>
      rw [ha] at h
      simp only [Option.getD_some] at h
      have hmem : "MAJOR ASPECTS:" ∈ contextAspectSection cd := by
        simp [contextAspectSection, ha, h]
      unfold contextLines
      exact List.mem_append.mpr (Or.inr hmem)

/-! ## The claims -/

/-- C1: the claim says the chart record's `placements` field is an ordered
mapping from planet-name string to a placement record and that this is the
shape consumed downstream.  In the code, `_extract_placements` builds a
Python LIST of records carrying the planet name as a `planet` field:
on the record of a successful generation the value is a list and not a
dict, `.items()` on it (the very iteration `set_chart_context` performs)
raises `AttributeError`, `'Sun' in placements` (the lookup
`get_suggested_prompts` performs) is `False`, and the downstream call
`set_chart_context` on the whole record raises (first at the
`birth_data['location']` access, whose producer key is `city`). -/
theorem c1_placements_is_list_not_mapping :
    pvGet sampleChart "placements" PVal.null
      = Except.ok (PVal.list (extract_placements sampleSubject))
    ∧ PVal.isList (PVal.list (extract_placements sampleSubject)) = true
    ∧ PVal.isDict (PVal.list (extract_placements sampleSubject)) = false
    ∧ pvItems (PVal.list (extract_placements sampleSubject))
      = Except.error (PyErr.attributeError "items")
    ∧ pvHasKey (PVal.list (extract_placements sampleSubject)) "Sun"
      = Except.ok false
    ∧ set_chart_context_dyn sampleChart
      = Except.error (PyErr.keyError "location") :=
  ⟨rfl, rfl, rfl, rfl, rfl, rfl⟩

/-- C2 counterexample: a provider failure after two text chunks makes
`chat_stream` yield the two partial chunks followed by an error chunk —
three chunks, not the exactly-one the claim states. -/
theorem c2_partial_text_before_error_chunk :
    (AstrologyCompanion.chat_stream sampleCompanion "What is a natal chart?"
      Option.none ["Hello", " there"]
      (some (PyErr.otherError "connection dropped"))).chunks
      = ["Hello", " there", "Error: connection dropped"]
    ∧ ¬((AstrologyCompanion.chat_stream sampleCompanion "What is a natal chart?"
        Option.none ["Hello", " there"]
        (some (PyErr.otherError "connection dropped"))).chunks.length = 1) := by
  refine ⟨rfl, by decide⟩

/-- C2 (amended): when the streaming call fails, the chunks already
yielded are followed by exactly one final chunk beginning with
`API Error: ` or `Error: `, after which the sequence terminates; if the
failure happens before any text was produced the sequence is exactly that
one error chunk. -/
theorem c2_stream_failure_appends_single_error_chunk :
    ∀ (c : AstrologyCompanion) (message : String)
      (history : Option (List ChatTurn)) (streamed : List String) (e : PyErr),
    (AstrologyCompanion.chat_stream c message history streamed (some e)).chunks
      = streamed ++ [errToChat e]
    ∧ ((∃ r, errToChat e = "API Error: " ++ r)
       ∨ (∃ r, errToChat e = "Error: " ++ r))
    ∧ (streamed = [] →
        (AstrologyCompanion.chat_stream c message history streamed
          (some e)).chunks.length = 1) := by
  intro c message history streamed e
  refine ⟨rfl, errToChat_shape e, ?_⟩
  intro hs
  subst hs
  rfl

/-- C2 witness: a failure with no preceding text yields exactly one
chunk. -/
theorem c2_stream_failure_witness :
    (AstrologyCompanion.chat_stream sampleCompanion "hi" Option.none []
      (some (PyErr.apiError "401 unauthorized"))).chunks.length = 1 :=
  (c2_stream_failure_appends_single_error_chunk sampleCompanion "hi"
    Option.none [] (PyErr.apiError "401 unauthorized")).2.2 rfl

/-- C3: `chat` is a total function into strings — no exception crosses its
boundary.  On any provider failure it returns the in-band string, which
starts with `API Error: ` or `Error: ` and carries the underlying cause;
on success it returns the text of the response's first content block. -/
theorem c3_chat_never_raises_in_band_errors :
    ∀ (c : AstrologyCompanion) (message : String)
      (history : Option (List ChatTurn)),
    (∀ e : PyErr,
      (AstrologyCompanion.chat c message history (Except.error e)).result
        = errToChat e
      ∧ ((∃ r, errToChat e = "API Error: " ++ r)
         ∨ (∃ r, errToChat e = "Error: " ++ r)))
    ∧ (∀ (t : String) (rest : List String),
      (AstrologyCompanion.chat c message history
        (Except.ok (t :: rest))).result = t) := by
  intro c message history
  exact ⟨fun e => ⟨rfl, errToChat_shape e⟩, fun t rest => rfl⟩

/-- C4: the claim says `generate_natal_chart` never updates one of
(`current_chart_data`, `chart_context`) without the other.  On a real
successful generation the code assigns `current_chart_data = result` and
then crashes inside `set_chart_context` (the record's shape does not match
the reader, see C1), so the chart slot is overwritten while the context
keeps its previous value — a partial update.  Validation failures and
upstream failures do leave the state unchanged. -/
theorem c4_successful_generation_updates_chart_without_context :
    sampleGeneration.1.current_chart_data = some sampleChart
    ∧ sampleGeneration.1.current_chart_data ≠ sampleAppState.current_chart_data
    ∧ sampleGeneration.1.chart_context = sampleAppState.chart_context
    ∧ sampleGeneration.2 = Except.error (PyErr.keyError "location")
    ∧ (generate_natal_chart sampleAppState "" 1990 1 1 12 0 "NYC" 40 (-74)
        "America/New_York" (Except.ok sampleSubject) Option.none true).1
      = sampleAppState
    ∧ (generate_natal_chart sampleAppState "Ada" 1990 1 1 12 0 "NYC" 40 (-74)
        "America/New_York" (Except.error (PyErr.otherError "ephemeris failure"))
        Option.none true).1
      = sampleAppState := by
  refine ⟨rfl, ?_, rfl, rfl, rfl, rfl⟩
  intro h
  have h1 : some sampleChart = some (PVal.str "previous chart") := h
  injection h1 with h2
  exact PVal.noConfusion h2

/-- C5: on every state reachable through `set_chart_context`, both `chat`
and `chat_stream` send exactly the spec's `composeSystemPrompt`: the bare
base prompt when no context is set, otherwise base + two-newline-rule
separator + `CURRENT CHART CONTEXT:` + newline + context, recomputed from
the current state on each call. -/
theorem c5_system_prompt_composition :
    ∀ (c : AstrologyCompanion) (cd : Option ChartData) (message : String)
      (history : Option (List ChatTurn)) (outcome : Except PyErr (List String))
      (streamed : List String) (failure : Option PyErr),
    (AstrologyCompanion.chat (AstrologyCompanion.set_chart_context c cd)
      message history outcome).systemSent
      = composeSystemPrompt (AstrologyCompanion.set_chart_context c cd)
    ∧ (AstrologyCompanion.chat_stream
        (AstrologyCompanion.set_chart_context c cd) message history streamed
        failure).systemSent
      = composeSystemPrompt (AstrologyCompanion.set_chart_context c cd)
    ∧ (AstrologyCompanion.set_chart_context c cd).system_prompt
      = c.system_prompt := by
  intro c cd message history outcome streamed failure
  have hne := set_chart_context_no_empty_context c cd
  refine ⟨chat_systemSent_eq _ _ _ _ hne,
    stream_systemSent_eq _ _ _ _ _ hne, ?_⟩
  cases cd with
  | none => rfl
  | some d =>
    by_cases hs : d.success <;>
      simp [AstrologyCompanion.set_chart_context, hs]

/-- C6 counterexample: on an absent record (`None`),
`format_chart_for_display` raises `AttributeError` at
`chart_data.get("success")` instead of returning
`"No chart data available."` as the claim states. -/
theorem c6_absent_record_display_raises :
    format_chart_for_display_dyn PVal.null
      = Except.error (PyErr.attributeError "get")
    ∧ format_chart_for_display_dyn PVal.null
      ≠ Except.ok "No chart data available." := by
  refine ⟨rfl, ?_⟩
  intro h
  rw [show format_chart_for_display_dyn PVal.null
      = Except.error (PyErr.attributeError "get") from rfl] at h
  exact Except.noConfusion h

/-- C6 (amended): for every chart record with `success = false`,
`format_chart_for_display` returns exactly `"No chart data available."`
and `set_chart_context` unsets the stored context with no other state
change; an absent record also unsets the context via `set_chart_context`,
while `format_chart_for_display` is not defined on it. -/
theorem c6_failed_record_handling :
    ∀ (c : AstrologyCompanion) (cd : ChartData), cd.success = false →
    format_chart_for_display cd = "No chart data available."
    ∧ AstrologyCompanion.set_chart_context c (some cd)
      = { c with chart_context := Option.none }
    ∧ AstrologyCompanion.set_chart_context c Option.none
      = { c with chart_context := Option.none }
    ∧ set_chart_context_dyn PVal.null = Except.ok Option.none := by
  intro c cd h
  refine ⟨?_, ?_, rfl, rfl⟩
  · simp [format_chart_for_display, h]
  · simp [AstrologyCompanion.set_chart_context, h]

/-- C6 witness: the failed sample record displays as the fixed string. -/
theorem c6_failed_record_handling_witness :
    format_chart_for_display failedChart = "No chart data available." :=
  (c6_failed_record_handling sampleCompanion failedChart rfl).1

/-- C7: `get_suggested_prompts` agrees with the spec's `suggestedPrompts`
on every input — fixed 5-item generic list without a successful chart;
otherwise Sun, Moon and Venus questions exactly when those placements
exist, then the three fixed closers, truncated to the first 6 — and its
result never exceeds 6 entries. -/
theorem c7_suggested_prompts_shape :
    ∀ (chart : Option ChartData),
    AstrologyCompanion.get_suggested_prompts chart = suggestedPrompts chart
    ∧ (AstrologyCompanion.get_suggested_prompts chart).length ≤ 6
    ∧ AstrologyCompanion.get_suggested_prompts Option.none
      = ["Tell me about my sun sign",
         "What does my moon sign mean?",
         "How do I read my natal chart?",
         "What are the most important placements?",
         "Explain houses in astrology"] := by
  intro chart
  refine ⟨?_, ?_, rfl⟩
  · cases chart with
    | none => rfl
    | some cd =>
      by_cases hs : cd.success
      · simp [AstrologyCompanion.get_suggested_prompts, suggestedPrompts, hs]
        cases lookupKV (cd.placements.getD []) "Sun" <;>
          cases lookupKV (cd.placements.getD []) "Moon" <;>
            cases lookupKV (cd.placements.getD []) "Venus" <;> rfl
      · simp [AstrologyCompanion.get_suggested_prompts, suggestedPrompts, hs]
  · cases chart with
    | none => decide
    | some cd =>
      by_cases hs : cd.success
      · simp [AstrologyCompanion.get_suggested_prompts, hs, List.length_take]
      · simp [AstrologyCompanion.get_suggested_prompts, hs]

/-- C8: for a successful chart whose aspects sequence has more than five
entries, both the stored context and the display document surface exactly
the first five aspects, in input order. -/
theorem c8_first_five_aspects_surfaced :
    ∀ (c : AstrologyCompanion) (cd : ChartData) (l : List AspectData),
    cd.success = true → cd.aspects = some l → 5 < l.length →
    (AstrologyCompanion.set_chart_context c (some cd)).chart_context
      = some (pyJoin "\n" (contextIntroLines cd ++ contextPlacementLines cd
          ++ contextInterpLines cd
          ++ (["", "MAJOR ASPECTS:"] ++ (l.take 5).map contextAspectLine)))
    ∧ format_chart_for_display cd
      = pyJoin "\n" (displayHeadLines cd ++ displayInterpLines cd
          ++ ["## Planetary Placements", ""] ++ displayPlacementSection cd
          ++ (["## Major Aspects", ""] ++ (l.take 5).map displayAspectLine
              ++ [""]))
    ∧ (l.take 5).length = 5 := by
  intro c cd l hs ha hl
  have hne : l.isEmpty = false := by
    cases l with
    | nil => simp at hl
    | cons x xs => rfl
  refine ⟨?_, ?_, ?_⟩
  · simp [AstrologyCompanion.set_chart_context, hs, contextLines,
      contextAspectSection, ha, hne]
  · simp [format_chart_for_display, hs, displayAspectSection, ha, hne]
  · simp [List.length_take]
    omega

/-- C8 witness: the eight-aspect sample chart surfaces five aspects. -/
theorem c8_first_five_aspects_witness : (eightAspects.take 5).length = 5 :=
  (c8_first_five_aspects_surfaced sampleCompanion aspectRichChart
    eightAspects rfl rfl (by decide)).2.2

/-- C9 counterexample: a successful chart with empty placements, an empty
interpretation mapping and an empty aspects sequence still gets a context
containing the `PLACEMENTS:` and `KEY THEMES:` header lines — the claim
says both would be omitted. -/
theorem c9_empty_sections_keep_headers :
    (AstrologyCompanion.set_chart_context sampleCompanion
      (some emptyChart)).chart_context
      = some ("User\x27s Natal Chart - A\nBirth: D at T\nLocation: L\n\nPLACEMENTS:\n\nKEY THEMES:")
    ∧ "PLACEMENTS:" ∈ contextLines emptyChart
    ∧ "KEY THEMES:" ∈ contextLines emptyChart
    ∧ "MAJOR ASPECTS:" ∉ contextLines emptyChart := by
  refine ⟨rfl, by decide, by decide, by decide⟩

/-- C9 (amended): in the context built by `set_chart_context` for a
successful chart, only the aspects section is omitted when empty (or
absent); the `PLACEMENTS:` header is always emitted, and the
`KEY THEMES:` header is emitted exactly when the `interpretation` key is
present, even with an empty mapping. -/
theorem c9_header_presence :
    ∀ (c : AstrologyCompanion) (cd : ChartData), cd.success = true →
    (AstrologyCompanion.set_chart_context c (some cd)).chart_context
      = some (pyJoin "\n" (contextLines cd))
    ∧ "PLACEMENTS:" ∈ contextLines cd
    ∧ (("KEY THEMES:" ∈ contextLines cd) ↔ cd.interpretation.isSome)
    ∧ (("MAJOR ASPECTS:" ∈ contextLines cd)
        ↔ (cd.aspects.getD []).isEmpty = false) := by
  intro c cd hs
  refine ⟨by simp [AstrologyCompanion.set_chart_context, hs], ?_,
    kt_iff cd, ma_iff cd⟩
  have hmem : "PLACEMENTS:" ∈ contextIntroLines cd := by
    simp [contextIntroLines]
  unfold contextLines
  exact List.mem_append.mpr (Or.inl (List.mem_append.mpr (Or.inl
    (List.mem_append.mpr (Or.inl hmem)))))

/-- C9 witness: the headers of the eight-aspect sample chart. -/
theorem c9_header_presence_witness :
    "PLACEMENTS:" ∈ contextLines aspectRichChart :=
  (c9_header_presence sampleCompanion aspectRichChart rfl).2.1

/-- C10 counterexample: an empty (but non-`None`) caller history list is
falsy, so `conversation_history or []` binds `messages` to a fresh list;
the caller's empty list is not mutated and does not grow by one entry as
the claim states. -/
theorem c10_empty_history_not_mutated :
    (some ([] : List ChatTurn)) ≠ Option.none
    ∧ (AstrologyCompanion.chat sampleCompanion "hi" (some [])
        (Except.ok ["ok"])).messagesBinding = HistBinding.fresh
    ∧ (AstrologyCompanion.chat sampleCompanion "hi" (some [])
        (Except.ok ["ok"])).callerHistory = some []
    ∧ ¬(((AstrologyCompanion.chat sampleCompanion "hi" (some [])
        (Except.ok ["ok"])).callerHistory.getD []).length = 0 + 1)
    ∧ (AstrologyCompanion.chat_stream sampleCompanion "hi" (some [])
        ["x"] Option.none).callerHistory = some [] := by
  refine ⟨by decide, rfl, rfl, by decide, rfl⟩

/-- C10 (amended): for every non-`None`, NON-EMPTY caller history, both
`chat` and `chat_stream` alias the caller's list and append the new user
turn to it in place, so the caller's list is one entry longer and is also
the message list sent to the provider. -/
theorem c10_nonempty_history_aliased_and_appended :
    ∀ (c : AstrologyCompanion) (message : String) (l : List ChatTurn)
      (outcome : Except PyErr (List String)) (streamed : List String)
      (failure : Option PyErr),
    l ≠ [] →
    (AstrologyCompanion.chat c message (some l) outcome).messagesBinding
      = HistBinding.aliased
    ∧ (AstrologyCompanion.chat c message (some l) outcome).callerHistory
      = some (l ++ [{ role := "user", content := message }])
    ∧ (AstrologyCompanion.chat c message (some l) outcome).messagesSent
      = l ++ [{ role := "user", content := message }]
    ∧ ((AstrologyCompanion.chat c message (some l)
        outcome).callerHistory.getD []).length = l.length + 1
    ∧ (AstrologyCompanion.chat_stream c message (some l) streamed
        failure).messagesBinding = HistBinding.aliased
    ∧ (AstrologyCompanion.chat_stream c message (some l) streamed
        failure).callerHistory
      = some (l ++ [{ role := "user", content := message }]) := by
  intro c message l outcome streamed failure hl
  have hne : l.isEmpty = false := by
    cases l with
    | nil => exact absurd rfl hl
    | cons x xs => rfl
  refine ⟨?_, ?_, ?_, ?_, ?_, ?_⟩ <;>
    simp [AstrologyCompanion.chat, AstrologyCompanion.chat_stream, hne]

/-- C10 witness: a one-turn history is aliased. -/
theorem c10_nonempty_history_witness :
    (AstrologyCompanion.chat sampleCompanion "hi"
      (some [{ role := "user", content := "prev" }])
      (Except.ok ["ok"])).messagesBinding = HistBinding.aliased :=
  (c10_nonempty_history_aliased_and_appended sampleCompanion "hi"
    [{ role := "user", content := "prev" }] (Except.ok ["ok"]) []
    Option.none (by decide)).1
